import Mathlib

/-!
Verification development for the Construction-Architect-Agent backend.

This file gives a shallow embedding of the Python sources under
`backend/` (the agent classes in `backend/adk_core/agents/`, the
generation client in `backend/adk_core/services/gemini_service.py`, the
registry in `backend/adk_core/__init__.py` and the settings module in
`backend/config/settings.py`) and proves properties of the embedded
definitions.

Modelling conventions:
* Python values flowing through the agents are JSON-compatible; they are
  modelled by the inductive `Value` below.  Python floats never influence
  any control decision in this code, so float literals are kept as opaque
  lexemes.
* Python dictionaries are association lists in insertion order, with
  `dictSet` reproducing the overwrite-in-place / append-at-end semantics
  of `d[k] = v`.
* Exceptions are modelled with `Except PyErr`; a `try`/`except` block is a
  `match` on the embedded body result.
* The network calls (`generate_content`, image generation) are modelled by
  oracle arguments describing the outcome of the external call; the agent
  code consumes only the returned payloads, never the wire data.
* Prompt text only flows into the generation call, whose outcome is an
  oracle, so the string assembly of prompts is elided; the attribute
  accesses performed while assembling a prompt (which can raise) are kept.
* CPython hashing of `int` values is modelled faithfully; hashing of
  strings and other objects is seed/interpreter dependent and is modelled
  by the fixed value 0 (theorems that depend on hash values use integer
  identifiers only).
-/

/-- JSON-compatible Python values (`None`, `bool`, `int`, `float`, `str`,
`list`, `dict`).  Dictionaries keep their entries in insertion order.
Float literals are represented by their lexeme and never computed with. -/
inductive Value where
  | null
  | bool (b : Bool)
  | int (n : Int)
  | numFloat (lexeme : String)
  | str (s : String)
  | list (items : List Value)
  | dict (entries : List (String × Value))

/-- A Python dictionary with string keys, in insertion order. -/
abbrev PyDict := List (String × Value)

/-- Lookup of a key in a dictionary (`d[k]` / `k in d` support). -/
def dictGet : PyDict → String → Option Value
  | [], _ => none
  | (k, v) :: rest, key => if k = key then some v else dictGet rest key

/-- `d.get(key, default)` on a dictionary. -/
def pyGet (d : PyDict) (key : String) (default : Value) : Value :=
  (dictGet d key).getD default

/-- `d[key] = v`: overwrite in place when the key exists (keeping its
position), otherwise append at the end, exactly as CPython dicts do. -/
def dictSet : PyDict → String → Value → PyDict
  | [], key, v => [(key, v)]
  | (k, w) :: rest, key, v =>
      if k = key then (k, v) :: rest else (k, w) :: dictSet rest key v

/-- `d.keys()` as a list of keys in insertion order. -/
def dictKeys (d : PyDict) : List String := d.map Prod.fst

/-- The exceptions that the embedded code can raise. -/
inductive PyErr where
  | jsonDecodeError (msg : String)
  | valueError (msg : String)
  | attributeError (msg : String)
  | typeError (msg : String)

/-- `str(e)` for the embedded exceptions: the stored message. -/
def pyErrStr : PyErr → String
  | .jsonDecodeError m => m
  | .valueError m => m
  | .attributeError m => m
  | .typeError m => m

/-- Python type name of a value, used in exception messages. -/
def pyTypeName : Value → String
  | .null => "NoneType"
  | .bool _ => "bool"
  | .int _ => "int"
  | .numFloat _ => "float"
  | .str _ => "str"
  | .list _ => "list"
  | .dict _ => "dict"

/-- `v.get(key, default)` where `v` is an arbitrary value: an
`AttributeError` unless `v` is a dictionary. -/
def pyDotGetD (v : Value) (key : String) (default : Value) : Except PyErr Value :=
  match v with
  | .dict d => .ok (pyGet d key default)
  | _ => .error (.attributeError (pyTypeName v ++ " object has no attribute get"))

/-- `v.get(key)` (default `None`). -/
def pyDotGet (v : Value) (key : String) : Except PyErr Value :=
  pyDotGetD v key .null

/-- `v.keys()`: an `AttributeError` unless `v` is a dictionary. -/
def pyDotKeys (v : Value) : Except PyErr (List String) :=
  match v with
  | .dict d => .ok (dictKeys d)
  | _ => .error (.attributeError (pyTypeName v ++ " object has no attribute keys"))

/-- Lookup in a string-keyed dictionary with an arbitrary value as key
(`d.get(location, default)` in the site agent): unhashable keys raise
`TypeError`, hashable non-string keys simply miss. -/
def pyDictGetVK (d : PyDict) (key : Value) (default : Value) : Except PyErr Value :=
  match key with
  | .list _ => .error (.typeError "unhashable type: list")
  | .dict _ => .error (.typeError "unhashable type: dict")
  | .str s => .ok (pyGet d s default)
  | _ => .ok default

/-- `v.get(key, default)` with an arbitrary value as key. -/
def pyDotGetVK (v : Value) (key : Value) (default : Value) : Except PyErr Value :=
  match v with
  | .dict d => pyDictGetVK d key default
  | _ => .error (.attributeError (pyTypeName v ++ " object has no attribute get"))

/-- `sep.join(x)`: element of a list argument must be a string. -/
def pyJoinItem : Value → Except PyErr String
  | .str s => .ok s
  | v => .error (.typeError ("sequence item: expected str instance, " ++ pyTypeName v ++ " found"))

/-- `sep.join(x)`: joins a list of strings, the characters of a string, or
the keys of a dictionary; other values raise `TypeError`. -/
def pyJoin (sep : String) (v : Value) : Except PyErr String :=
  match v with
  | .list xs => do
      let parts ← xs.mapM pyJoinItem
      .ok (String.intercalate sep parts)
  | .str s => .ok (String.intercalate sep (s.data.map String.singleton))
  | .dict d => .ok (String.intercalate sep (dictKeys d))
  | v => .error (.typeError ("can only join an iterable, not " ++ pyTypeName v))

/-- CPython hashing.  Integers hash with the `pyhash` modulus `2^61 - 1`
(with `-1` mapped to `-2`); hashing of strings and other objects is
interpreter/seed dependent and is modelled by the fixed value 0, so
theorems that depend on concrete hash values use integer identifiers. -/
def pyHash : Value → Int
  | .int n =>
      let m : Int := 2 ^ 61 - 1
      let r := if 0 ≤ n then n % m else -((-n) % m)
      if r = -1 then -2 else r
  | _ => 0

/-- `repr(v)` (Python renders nested containers with `repr`). -/
def pyRepr : Value → String
  | .null => "None"
  | .bool true => "True"
  | .bool false => "False"
  | .int n => toString n
  | .numFloat lx => lx
  | .str s => "\x27" ++ s ++ "\x27"
  | .list xs =>
      "[" ++ String.intercalate ", " (xs.attach.map (fun v => pyRepr v.1)) ++ "]"
  | .dict d =>
      "\x7b" ++
        String.intercalate ", "
          (d.attach.map (fun kv => "\x27" ++ kv.1.1 ++ "\x27: " ++ pyRepr kv.1.2)) ++
      "\x7d"
decreasing_by
  · have h := List.sizeOf_lt_of_mem v.2
    simp only [Value.list.sizeOf_spec]
    omega
  · have h := List.sizeOf_lt_of_mem kv.2
    obtain ⟨⟨k, w⟩, hm⟩ := kv
    simp only [Prod.mk.sizeOf_spec] at h
    simp only [Value.dict.sizeOf_spec]
    omega

/-- `str(v)` as used by f-string interpolation. -/
def pyStr : Value → String
  | .str s => s
  | v => pyRepr v

/-! JSON parsing: a model of `json.loads`.  It covers the grammar the
Python standard parser accepts in its default strict mode: objects,
arrays, strings with the standard escapes, integers, floats (kept as
opaque lexemes, including the `NaN` / `Infinity` extensions), `true`,
`false`, `null`; raw control characters inside strings and leading zeros
in numbers are rejected, duplicate object keys keep the last value. -/

/-- The opening-brace character. -/
def chLBrace : Char := Char.ofNat 123

/-- The closing-brace character. -/
def chRBrace : Char := Char.ofNat 125

/-- The double-quote character. -/
def chQuote : Char := Char.ofNat 34

/-- The backslash character. -/
def chBackslash : Char := Char.ofNat 92

/-- JSON whitespace. -/
def isJsonWs (c : Char) : Bool :=
  c = ' ' || c = '\t' || c = '\n' || c = '\r'

/-- Skip leading JSON whitespace. -/
def skipWs : List Char → List Char
  | [] => []
  | c :: cs => if isJsonWs c then skipWs cs else c :: cs

/-- Hexadecimal digit value. -/
def hexVal (c : Char) : Option Nat :=
  if c.isDigit then some (c.toNat - 48)
  else if 97 ≤ c.toNat && c.toNat ≤ 102 then some (c.toNat - 87)
  else if 65 ≤ c.toNat && c.toNat ≤ 70 then some (c.toNat - 55)
  else none

/-- Parse the body of a JSON string (the opening quote already consumed),
accumulating into `acc`; returns the string and the remaining input. -/
def parseJStringAux : Nat → List Char → String → Option (String × List Char)
  | 0, _, _ => none
  | _ + 1, [], _ => none
  | fuel + 1, c :: cs, acc =>
    if c = chQuote then some (acc, cs)
    else if c = chBackslash then
      match cs with
      | [] => none
      | e :: cs2 =>
        if e = chQuote then parseJStringAux fuel cs2 (acc.push chQuote)
        else if e = chBackslash then parseJStringAux fuel cs2 (acc.push chBackslash)
        else if e = '/' then parseJStringAux fuel cs2 (acc.push '/')
        else if e = 'b' then parseJStringAux fuel cs2 (acc.push (Char.ofNat 8))
        else if e = 'f' then parseJStringAux fuel cs2 (acc.push (Char.ofNat 12))
        else if e = 'n' then parseJStringAux fuel cs2 (acc.push '\n')
        else if e = 'r' then parseJStringAux fuel cs2 (acc.push '\r')
        else if e = 't' then parseJStringAux fuel cs2 (acc.push '\t')
        else if e = 'u' then
          match cs2 with
          | h1 :: h2 :: h3 :: h4 :: cs3 =>
            match hexVal h1, hexVal h2, hexVal h3, hexVal h4 with
            | some a, some b, some c2, some d2 =>
                parseJStringAux fuel cs3
                  (acc.push (Char.ofNat (a * 4096 + b * 256 + c2 * 16 + d2)))
            | _, _, _, _ => none
          | _ => none
        else none
    else if c.toNat < 32 then none
    else parseJStringAux fuel cs (acc.push c)

/-- Digits to a natural number. -/
def digitsToNat (ds : List Char) : Nat :=
  ds.foldl (fun n c => n * 10 + (c.toNat - 48)) 0

/-- Parse the fractional part of a number, returning its lexeme. -/
def parseFracPart (cs : List Char) : Option (List Char × List Char) :=
  match cs with
  | '.' :: r =>
      let p := r.span (fun c => c.isDigit)
      if p.1 = [] then none else some ('.' :: p.1, p.2)
  | _ => some ([], cs)

/-- Parse the exponent part of a number, returning its lexeme. -/
def parseExpPart (cs : List Char) : Option (List Char × List Char) :=
  match cs with
  | e :: r =>
      if e = 'e' || e = 'E' then
        let sp : List Char × List Char :=
          match r with
          | '+' :: r2 => (['+'], r2)
          | '-' :: r2 => (['-'], r2)
          | _ => ([], r)
        let p := sp.2.span (fun c => c.isDigit)
        if p.1 = [] then none else some (e :: (sp.1 ++ p.1), p.2)
      else some ([], cs)
  | [] => some ([], [])

/-- Parse a JSON number starting at `cs` (which may begin with a minus
sign).  Pure integers become `Value.int`; anything with a fraction or an
exponent becomes an opaque `Value.numFloat` lexeme. -/
def parseNumber (cs : List Char) : Option (Value × List Char) :=
  let sp : Bool × List Char :=
    match cs with
    | '-' :: r => (true, r)
    | _ => (false, cs)
  let p := sp.2.span (fun c => c.isDigit)
  match p.1 with
  | [] => none
  | d :: ds =>
    if d = '0' && ds ≠ [] then none
    else
      match parseFracPart p.2 with
      | none => none
      | some (frac, rest1) =>
        match parseExpPart rest1 with
        | none => none
        | some (ex, rest2) =>
          if frac = [] && ex = [] then
            some (.int (if sp.1 then -(digitsToNat p.1 : Int) else (digitsToNat p.1 : Int)), rest2)
          else
            some (.numFloat (String.mk ((if sp.1 then ['-'] else []) ++ p.1 ++ frac ++ ex)), rest2)

mutual

/-- Parse one JSON value after skipping whitespace. -/
def parseVal : Nat → List Char → Option (Value × List Char)
  | 0, _ => none
  | fuel + 1, cs =>
    match skipWs cs with
    | [] => none
    | c :: rest =>
      if c = chLBrace then
        match skipWs rest with
        | [] => none
        | d :: rest2 =>
          if d = chRBrace then some (.dict [], rest2)
          else parseObj fuel (d :: rest2) []
      else if c = '[' then
        match skipWs rest with
        | [] => none
        | d :: rest2 =>
          if d = ']' then some (.list [], rest2)
          else parseArr fuel (d :: rest2) []
      else if c = chQuote then
        match parseJStringAux (rest.length + 1) rest "" with
        | some (s, rest2) => some (.str s, rest2)
        | none => none
      else if c = 't' then
        if ['r', 'u', 'e'].isPrefixOf rest then some (.bool true, rest.drop 3) else none
      else if c = 'f' then
        if ['a', 'l', 's', 'e'].isPrefixOf rest then some (.bool false, rest.drop 4) else none
      else if c = 'n' then
        if ['u', 'l', 'l'].isPrefixOf rest then some (.null, rest.drop 3) else none
      else if c = 'N' then
        if ['a', 'N'].isPrefixOf rest then some (.numFloat "NaN", rest.drop 2) else none
      else if c = 'I' then
        if ['n', 'f', 'i', 'n', 'i', 't', 'y'].isPrefixOf rest then
          some (.numFloat "Infinity", rest.drop 7)
        else none
      else if c = '-' then
        if ['I', 'n', 'f', 'i', 'n', 'i', 't', 'y'].isPrefixOf rest then
          some (.numFloat "-Infinity", rest.drop 8)
        else parseNumber (c :: rest)
      else if c.isDigit then parseNumber (c :: rest)
      else none

/-- Parse the members of a JSON object, positioned at a key; `acc` holds
the members seen so far (`dictSet` gives CPython duplicate-key handling). -/
def parseObj : Nat → List Char → PyDict → Option (Value × List Char)
  | 0, _, _ => none
  | fuel + 1, cs, acc =>
    match cs with
    | [] => none
    | c :: rest =>
      if c = chQuote then
        match parseJStringAux (rest.length + 1) rest "" with
        | none => none
        | some (k, rest2) =>
          match skipWs rest2 with
          | ':' :: rest3 =>
            match parseVal fuel rest3 with
            | none => none
            | some (v, rest4) =>
              let acc2 := dictSet acc k v
              match skipWs rest4 with
              | [] => none
              | d :: rest5 =>
                if d = ',' then parseObj fuel (skipWs rest5) acc2
                else if d = chRBrace then some (.dict acc2, rest5)
                else none
          | _ => none
      else none

/-- Parse the elements of a JSON array, positioned at a value; `acc` holds
the elements seen so far. -/
def parseArr : Nat → List Char → List Value → Option (Value × List Char)
  | 0, _, _ => none
  | fuel + 1, cs, acc =>
    match parseVal fuel cs with
    | none => none
    | some (v, rest) =>
      match skipWs rest with
      | [] => none
      | d :: rest2 =>
        if d = ',' then parseArr fuel rest2 (acc ++ [v])
        else if d = ']' then some (.list (acc ++ [v]), rest2)
        else none

end

/-- `json.loads`: parse a complete JSON document; trailing non-whitespace
is an error, as in Python. -/
def jsonLoads (s : String) : Except String Value :=
  match parseVal (s.length + 1) s.data with
  | some (v, rest) => if (skipWs rest).isEmpty then .ok v else .error "Extra data"
  | none => .error "Expecting value"

/-! The Generation Client (`backend/adk_core/services/gemini_service.py`). -/

/-- Constructor-visible state of a `GeminiService` instance: whether the
text and image model handles were set (on an initialization failure both
are left as `None`). -/
structure GeminiServiceState where
  geminiModel : Bool
  imagenModel : Bool

/-- Outcome of the Vertex AI initialization performed in
`GeminiService.__init__` (an external effect). -/
inductive InitOutcome where
  | ok
  | exn (msg : String)

/-- `GeminiService.__init__`: the whole initialization is wrapped in one
`try`; on any exception both model handles stay `None`. -/
def geminiServiceInit : InitOutcome → GeminiServiceState
  | .ok => ⟨true, true⟩
  | .exn _ => ⟨false, false⟩

/-- One candidate of a `GenerateContentResponse`; `parts` holds the text
of each content part. -/
structure Candidate where
  parts : List String

/-- Outcome of the external `generate_content` network call. -/
inductive TextCallOutcome where
  | ok (candidates : List Candidate)
  | exn (msg : String)

/-- `GeminiService.generate_text`: returns the first part of the first
candidate when present; `None` when the client is uninitialized, when the
call raises, when there are no candidates, or when the first candidate has
no parts. -/
def generate_text (st : GeminiServiceState) (o : TextCallOutcome) : Option String :=
  if st.geminiModel = false then none
  else
    match o with
    | .exn _ => none
    | .ok [] => none
    | .ok (c :: _) =>
      match c.parts with
      | [] => none
      | p :: _ => some p

/-- Outcome of the external image-generation call; the strings are the
base64-encoded renders produced at the boundary. -/
inductive ImageCallOutcome where
  | ok (images : List String)
  | exn (msg : String)

/-- `GeminiService.generate_image`: returns the encoding of the first
image when at least one is produced; `None` when the client is
uninitialized, when the call raises, or when no image comes back. -/
def generate_image (st : GeminiServiceState) (o : ImageCallOutcome) : Option String :=
  if st.imagenModel = false then none
  else
    match o with
    | .exn _ => none
    | .ok [] => none
    | .ok (img :: _) => some img

/-! Process configuration (`backend/config/settings.py`). -/

/-- The pydantic settings model: two required fields and two defaulted
fields. -/
structure Settings where
  GOOGLE_APPLICATION_CREDENTIALS : String
  PROJECT_ID : String
  LOCATION : String
  GEMINI_MODEL_NAME : String

/-- Constructing `Settings()` from the process environment (pydantic
`BaseSettings` semantics): a missing required field raises a
`ValidationError`.  The module-level statement `settings = Settings()`
runs at import time, so an `error` here is an uncaught exception that
crashes the process during startup. -/
def mkSettings (env : String → Option String) : Except String Settings :=
  match env "GOOGLE_APPLICATION_CREDENTIALS", env "PROJECT_ID" with
  | some cred, some proj =>
      .ok ⟨cred, proj, (env "LOCATION").getD "us-central1",
           (env "GEMINI_MODEL_NAME").getD "gemini-1.5-flash"⟩
  | _, _ => .error "pydantic validation error: missing required settings field"

/-! The agent registry (`backend/adk_core/__init__.py`).  Object identity
is modelled by allocation stamps drawn from a counter, so that "the same
instances" is expressible; `initCount` counts how many times the
initialization branch ran. -/

/-- The registration keys of the 19 agents, in registration order. -/
def adkAgentKeys : List String :=
  ["strategic_client_engagement_agent", "site_intelligence_regulatory_compliance_agent",
   "generative_architectural_design_agent", "integrated_systems_engineering_agent",
   "interior_experiential_design_agent", "hyper_realistic_3d_digital_twin_agent",
   "predictive_cost_supply_chain_agent", "adaptive_project_management_robotics_orchestration_agent",
   "proactive_risk_safety_management_agent", "ai_driven_quality_assurance_control_agent",
   "semantic_data_integration_ontology_agent", "learning_adaptation_agent",
   "human_ai_collaboration_explainability_agent", "sustainability_green_building_agent",
   "financial_investment_analysis_agent", "legal_contract_management_agent",
   "workforce_management_hr_agent", "post_construction_facility_management_agent",
   "public_relations_stakeholder_communication_agent"]

/-- The module-level mutable state of `backend/adk_core/__init__.py`:
`_adk_agents` (agent key to instance stamp), `_resolver` (instance
stamp), plus the bookkeeping counters of the model. -/
structure AdkSystemState where
  adkAgents : Option (List (String × Nat))
  resolver : Option Nat
  allocCounter : Nat
  initCount : Nat
deriving DecidableEq

/-- The fresh-process module state. -/
def adkInitialState : AdkSystemState := ⟨none, none, 0, 0⟩

/-- `initialize_adk_system_with_agents` (the leading `initialize` of the
source name is shortened to `init`): when `_resolver` is `None`, builds
the prediction client and resolver and instantiates all 19 agents;
otherwise does nothing.  Returns `(_adk_agents, _resolver)` and the
updated module state. -/
def init_adk_system_with_agents (st : AdkSystemState) :
    (Option (List (String × Nat)) × Option Nat) × AdkSystemState :=
  if st.resolver.isNone then
    let resolverId := st.allocCounter
    let agents := adkAgentKeys.enum.map (fun p => (p.2, st.allocCounter + 1 + p.1))
    let st2 : AdkSystemState :=
      ⟨some agents, some resolverId, st.allocCounter + 1 + adkAgentKeys.length,
       st.initCount + 1⟩
    ((st2.adkAgents, st2.resolver), st2)
  else ((st.adkAgents, st.resolver), st)

/-- `get_adk_system`: runs the initializer when either global is still
`None`, then returns `(_adk_agents, _resolver)`. -/
def get_adk_system (st : AdkSystemState) :
    (Option (List (String × Nat)) × Option Nat) × AdkSystemState :=
  if st.adkAgents.isNone || st.resolver.isNone then
    let st2 := (init_adk_system_with_agents st).2
    ((st2.adkAgents, st2.resolver), st2)
  else ((st.adkAgents, st.resolver), st)

/-! The agents.  Each `process_request` is embedded as a pure function of
the input dictionary and of oracles for the external generation calls
(`llm` is the value `generate_text` returned; the twin agent takes the
service state and the two image-call outcomes).  The body inside the
outer `try` is a separate `...Body` definition in `Except PyErr`; the
outer `except Exception` is the `match` in the `...ProcessRequest`
wrapper.  Each run records the input mapping as the call leaves it: every
access the sources make to `user_input` is a non-mutating `dict.get`
read, and all item assignments target the freshly parsed or fallback
payload dictionaries, which the embedding reflects by applying `dictSet`
only to those values. -/

/-- Result of one agent call: the returned output dictionary and the
input mapping as the call leaves it. -/
structure AgentRun where
  output : PyDict
  userInputAfter : PyDict

/-- The error-output shape shared by all agents. -/
def agentError (name msg : String) : PyDict :=
  [("agent_name", .str name), ("status", .str "error"), ("message", .str msg)]

/-! Predictive Cost & Supply Chain Agent
(`predictive_cost_supply_chain_agent.py`). -/

/-- `self.name` of the cost agent. -/
def costAgentName : String := "Predictive Cost & Supply Chain Agent"

/-- The required top-level keys the cost agent validates on the parsed
response. -/
def costRequiredKeys : List String :=
  ["total_estimated_cost_usd", "cost_breakdown", "procurement_strategy"]

/-- Whether a parsed object carries all the cost agent's required keys. -/
def costHasRequiredKeys (d : PyDict) : Bool :=
  costRequiredKeys.all (fun k => (dictGet d k).isSome)

/-- The fallback object the cost agent substitutes when the model reply is
not valid JSON.  Its cost figure is `700000 + (hash(project_id) % 100000)`,
so it depends on the project identifier. -/
def costFallback (projectId : Value) : PyDict :=
  [("total_estimated_cost_usd", .int (700000 + pyHash projectId % 100000)),
   ("cost_breakdown", .dict
     [("materials", .str "N/A"), ("labor", .str "N/A"), ("equipment", .str "N/A"),
      ("permits_fees", .str "N/A"), ("contingency", .str "N/A")]),
   ("procurement_strategy", .str "Generic procurement strategy due to parsing error.")]

/-- The attribute reads performed while interpolating the cost prompt
(the prompt text itself is elided; only these reads can raise). -/
def costPromptReads (input : PyDict) : Except PyErr Unit := do
  let arch := pyGet input "architectural_concept" (.dict [])
  let sysd := pyGet input "system_design" (.dict [])
  let expd := pyGet input "experiential_design" (.dict [])
  let _ := pyGet input "project_description" (.str "a construction project")
  let _ := pyGet input "project_size" (.str "medium")
  let _ ← pyDotGet arch "design_style_summary"
  let _ ← pyDotGet sysd "structural_notes"
  let _ ← pyDotGet sysd "mep_notes"
  let _ ← pyDotGet expd "material_palette_notes"
  .ok ()

/-- Body of `PredictiveCostSupplyChainAgent.process_request` inside the
outer `try`: assemble the prompt, call the model (`llm` is the returned
value), handle `None`, parse with fallback on `JSONDecodeError`, raise
`ValueError` on a non-object or missing-key reply, merge the pass-through
identifiers and wrap the payload. -/
def costBody (input : PyDict) (llm : Option String) : Except PyErr PyDict := do
  let projectId := pyGet input "project_id" .null
  let _ ← costPromptReads input
  match llm with
  | none =>
      .ok (agentError costAgentName
        "LLM did not generate a valid response for cost/supply chain.")
  | some text => do
    let est ←
      match jsonLoads text with
      | .error _ => .ok (costFallback projectId)
      | .ok v =>
        match v with
        | .dict d =>
          if costHasRequiredKeys d then .ok d
          else .error (.valueError
            "LLM response JSON is not in the expected cost/supply chain format.")
        | _ => .error (.valueError
            "LLM response JSON is not in the expected cost/supply chain format.")
    let est := dictSet est "project_id" projectId
    let est := dictSet est "status" (.str "cost_estimation_complete")
    .ok [("agent_name", .str costAgentName), ("status", .str "success"),
         ("cost_supply_chain_analysis", .dict est)]

/-- The message of the cost agent's outer exception handler. -/
def costErrorMessage (input : PyDict) (e : PyErr) : String :=
  "Failed cost and supply chain analysis for " ++
    pyStr (pyGet input "project_id" .null) ++ ": " ++ pyErrStr e

/-- `PredictiveCostSupplyChainAgent.process_request`. -/
def costProcessRequest (input : PyDict) (llm : Option String) : AgentRun :=
  match costBody input llm with
  | .ok out => ⟨out, input⟩
  | .error e => ⟨agentError costAgentName (costErrorMessage input e), input⟩

/-! Site Intelligence & Regulatory Compliance Agent
(`site_intelligence_regulatory_compliance_agent.py`). -/

/-- `self.name` of the site agent. -/
def siteAgentName : String := "Site Intelligence & Regulatory Compliance Agent"

/-- Mock zoning data for London (`self.mock_zoning_data["London, UK"]`). -/
def londonZoning : PyDict :=
  [("residential", .dict
     [("allowed_height_m", .int 12),
      ("setbacks_m", .dict [("front", .int 5), ("sides", .int 3), ("rear", .int 7)])]),
   ("commercial", .dict
     [("allowed_height_m", .int 20),
      ("setbacks_m", .dict [("front", .int 3), ("sides", .int 1), ("rear", .int 5)])]),
   ("max_coverage_percent", .int 40),
   ("environmental_risk", .str
     "Low (potential for minor soil contamination near old industrial sites)"),
   ("common_building_codes", .str
     "UK Building Regulations Part B (Fire Safety), Part M (Access to and use of buildings), Part L (Conservation of fuel and power).")]

/-- Mock zoning data for New York. -/
def newYorkZoning : PyDict :=
  [("residential", .dict
     [("allowed_height_m", .int 150),
      ("setbacks_m", .dict [("front", .int 0), ("sides", .int 0), ("rear", .int 0)])]),
   ("commercial", .dict
     [("allowed_height_m", .int 300),
      ("setbacks_m", .dict [("front", .int 0), ("sides", .int 0), ("rear", .int 0)])]),
   ("max_coverage_percent", .int 100),
   ("environmental_risk", .str
     "Medium (urban heat island effect, historical underground infrastructure)"),
   ("common_building_codes", .str "NYC Building Code, ADA Compliance.")]

/-- Mock zoning data for rural California. -/
def ruralCaliforniaZoning : PyDict :=
  [("residential", .dict
     [("allowed_height_m", .int 10),
      ("setbacks_m", .dict [("front", .int 10), ("sides", .int 5), ("rear", .int 10)])]),
   ("commercial", .dict
     [("allowed_height_m", .int 15),
      ("setbacks_m", .dict [("front", .int 8), ("sides", .int 4), ("rear", .int 8)])]),
   ("max_coverage_percent", .int 25),
   ("environmental_risk", .str
     "High (wildfire risk, seismic activity, water scarcity, protected species habitats)"),
   ("common_building_codes", .str
     "California Building Standards Code (Title 24), Wildland-Urban Interface (WUI) codes.")]

/-- `self.mock_zoning_data`. -/
def mockZoningData : PyDict :=
  [("London, UK", .dict londonZoning),
   ("New York, USA", .dict newYorkZoning),
   ("Rural, California, USA", .dict ruralCaliforniaZoning)]

/-- The static fallback object the site agent substitutes when the model
reply is not valid JSON. -/
def siteFallback : PyDict :=
  [("summary", .str "Could not parse regulatory summary from AI. Manual review required."),
   ("compliance_challenges", .list
     [.str "AI parsing failed or response malformed."]),
   ("recommendations", .list
     [.str "Consult local regulations directly for detailed compliance."])]

/-- Body of `SiteIntelligenceRegulatoryComplianceAgent.process_request`
inside the outer `try`.  The regulatory prompt interpolates only
JSON-serializable values, so its text is elided. -/
def siteBody (input : PyDict) (llm : Option String) : Except PyErr PyDict := do
  let projectId := pyGet input "project_id" .null
  let location := pyGet input "location" .null
  let projectType := pyGet input "project_type" .null
  let _initialRequirements := pyGet input "parsed_data" (.dict input)
  let siteInfo ← pyDictGetVK mockZoningData location (.dict londonZoning)
  let zoningRules ← pyDotGetVK siteInfo projectType (.dict [])
  let envRisk ← pyDotGetD siteInfo "environmental_risk" (.str "Unknown")
  let commonCodes ← pyDotGetD siteInfo "common_building_codes"
    (.str "Standard building codes apply.")
  match llm with
  | none =>
      .ok (agentError siteAgentName
        "LLM did not generate a valid response for regulatory interpretation.")
  | some text => do
    let parsed : Value :=
      match jsonLoads text with
      | .error _ => .dict siteFallback
      | .ok v => v
    let allowedHeight ← pyDotGetD zoningRules "allowed_height_m" (.str "N/A")
    let setbacks ← pyDotGetD zoningRules "setbacks_m" (.dict [])
    let maxCoverage ← pyDotGetD siteInfo "max_coverage_percent" (.str "N/A")
    let summary ← pyDotGetD parsed "summary" (.str "N/A")
    let challenges ← pyDotGetD parsed "compliance_challenges" (.list [])
    let recommendations ← pyDotGetD parsed "recommendations" (.list [])
    let report : PyDict :=
      [("project_id", projectId), ("location", location), ("project_type", projectType),
       ("status", .str "initial_analysis_complete"),
       ("zoning_data", .dict
         [("allowed_height_m", allowedHeight), ("setbacks_m", setbacks),
          ("max_coverage_percent", maxCoverage)]),
       ("environmental_risk", envRisk), ("common_building_codes", commonCodes),
       ("regulatory_summary_ai", summary), ("compliance_challenges_ai", challenges),
       ("site_recommendations_ai", recommendations)]
    .ok [("agent_name", .str siteAgentName), ("status", .str "success"),
         ("site_feasibility_report", .dict report)]

/-- `SiteIntelligenceRegulatoryComplianceAgent.process_request`. -/
def siteProcessRequest (input : PyDict) (llm : Option String) : AgentRun :=
  match siteBody input llm with
  | .ok out => ⟨out, input⟩
  | .error e =>
      ⟨agentError siteAgentName
        ("Failed site analysis for " ++ pyStr (pyGet input "project_id" .null) ++
          ": " ++ pyErrStr e), input⟩

/-! Strategic Client Engagement Agent
(`strategic_client_engagement_agent.py`).  The instance field
`self.mock_project_id` is built from a seed-dependent string hash at
construction time, so it is a parameter of the embedding. -/

/-- `self.name` of the client engagement agent. -/
def strategicAgentName : String := "Strategic Client Engagement Agent"

/-- The fallback object the client engagement agent substitutes when the
model reply is not valid JSON; it embeds the raw client data. -/
def strategicFallback (clientData : PyDict) : PyDict :=
  [("parsed_requirements", .dict clientData),
   ("clarification_needed", .str "Gemini could not parse inquiry, manual review needed."),
   ("suggested_next_steps", .str "Manual review of client inquiry.")]

/-- Body of `StrategicClientEngagementAgent.process_request` inside the
outer `try` (the prompt interpolates `json.dumps(client_data)`, which is
total on the JSON-compatible inputs, so its text is elided). -/
def strategicBody (mockProjectId : String) (input : PyDict) (llm : Option String) :
    Except PyErr PyDict := do
  let _clientName := pyGet input "client_name" .null
  match llm with
  | none =>
      .ok (agentError strategicAgentName
        "LLM did not generate a valid response for requirement parsing.")
  | some text => do
    let parsed : Value :=
      match jsonLoads text with
      | .error _ => .dict (strategicFallback input)
      | .ok v => v
    let parsedRequirements ← pyDotGetD parsed "parsed_requirements" (.dict input)
    let clarification ← pyDotGetD parsed "clarification_needed" (.str "None")
    let nextSteps ← pyDotGetD parsed "suggested_next_steps" (.str "Proceed to site analysis.")
    .ok [("agent_name", .str strategicAgentName), ("status", .str "success"),
         ("details", .str "Client inquiry processed. Initial data extracted. Workflow initiated."),
         ("parsed_data", parsedRequirements),
         ("clarifications", clarification),
         ("workflow_suggested", nextSteps),
         ("project_id", .str mockProjectId)]

/-- `StrategicClientEngagementAgent.process_request`. -/
def strategicProcessRequest (mockProjectId : String) (input : PyDict)
    (llm : Option String) : AgentRun :=
  match strategicBody mockProjectId input llm with
  | .ok out => ⟨out, input⟩
  | .error e =>
      ⟨agentError strategicAgentName
        ("Failed to process client inquiry: " ++ pyErrStr e), input⟩

/-! Hyper-Realistic 3D Digital Twin Agent
(`hyper_realistic_3d_digital_twin_agent.py`). -/

/-- `self.name` of the digital twin agent. -/
def twinAgentName : String := "Hyper-Realistic 3D Digital Twin Agent"

/-- `x[:100] + "..." if x else "N/A"` applied to a render result
(`None` and the empty string are both falsy). -/
def twinTruncateRender (r : Option String) : Value :=
  match r with
  | some s => if s = "" then .str "N/A" else .str (s.take 100 ++ "...")
  | none => .str "N/A"

/-- The full render value stored next to the truncated one. -/
def twinFullRender (r : Option String) : Value :=
  match r with
  | some s => .str s
  | none => .null

/-- Body of `HyperRealistic3DDigitalTwinAgent.process_request` inside the
outer `try`: two Imagen calls whose `None` results are tolerated and
replaced by "N/A" placeholders.  Prompt text is elided; the attribute
reads and the join performed while interpolating it are kept. -/
def twinBody (input : PyDict) (st : GeminiServiceState) (o1 o2 : ImageCallOutcome) :
    Except PyErr PyDict := do
  let projectId := pyGet input "project_id" .null
  let arch := pyGet input "architectural_concept" (.dict [])
  let expd := pyGet input "experiential_design" (.dict [])
  let siteReport := pyGet input "site_feasibility_report" (.dict [])
  let _ ← pyDotGet arch "design_style_summary"
  let _ ← pyDotGet siteReport "location"
  let _ ← pyDotGet expd "landscape_features"
  let elems ← pyDotGetD arch "key_design_elements" (.list [])
  let _ ← pyJoin ", " elems
  let exteriorRender := generate_image st o1
  let _ ← pyDotGet arch "design_style_summary"
  let _ ← pyDotGet expd "interior_style"
  let _ ← pyDotGet expd "material_palette_notes"
  let interiorRender := generate_image st o2
  let twinOutput : PyDict :=
    [("project_id", projectId),
     ("digital_twin_url_placeholder",
       .str "[https://example.com/digital_twin_model.gltf](https://example.com/digital_twin_model.gltf)"),
     ("exterior_render_base64", twinTruncateRender exteriorRender),
     ("full_exterior_render_base64", twinFullRender exteriorRender),
     ("interior_render_base64", twinTruncateRender interiorRender),
     ("full_interior_render_base64", twinFullRender interiorRender),
     ("status", .str "initial_twin_created"),
     ("details", .str "High-fidelity digital twin model and initial renders generated."),
     ("generated_render_prompts", .dict
       [("exterior", .str ""), ("interior", .str "")])]
  .ok [("agent_name", .str twinAgentName), ("status", .str "success"),
       ("digital_twin_output", .dict twinOutput)]

/-- `HyperRealistic3DDigitalTwinAgent.process_request`. -/
def twinProcessRequest (input : PyDict) (st : GeminiServiceState)
    (o1 o2 : ImageCallOutcome) : AgentRun :=
  match twinBody input st o1 o2 with
  | .ok out => ⟨out, input⟩
  | .error e =>
      ⟨agentError twinAgentName
        ("Failed digital twin creation for " ++ pyStr (pyGet input "project_id" .null) ++
          ": " ++ pyErrStr e), input⟩

/-! Semantic Data Integration & Ontology Agent
(`semantic_data_integration_ontology_agent.py`).  This agent builds a
summary of `.keys()` views BEFORE its `try` block, so a failure there
escapes `process_request`; additionally `json.dumps` rejects the
`dict_keys` views inside the `try`. -/

/-- `self.name` of the data integration agent. -/
def semanticAgentName : String := "Semantic Data Integration & Ontology Agent"

/-- The required top-level keys the data integration agent validates. -/
def semanticRequiredKeys : List String :=
  ["data_domains", "integration_challenges", "suggested_ontologies"]

/-- The static fallback object for non-JSON replies. -/
def semanticFallback : PyDict :=
  [("data_domains", .list [.str "Design", .str "Cost", .str "Schedule"]),
   ("integration_challenges", .list [.str "Data silos", .str "Format incompatibility"]),
   ("suggested_ontologies", .list [.str "IFC (Industry Foundation Classes)"])]

/-- The `agent_outputs_summary` construction that runs before the `try`
block: seven `.keys()` calls, each of which raises `AttributeError` when
the extracted value is not a mapping. -/
def semanticPreTryKeys (input : PyDict) : Except PyErr (List (String × List String)) := do
  let a ← pyDotKeys (pyGet input "parsed_data" (.dict []))
  let b ← pyDotKeys (pyGet input "site_feasibility_report" (.dict []))
  let c ← pyDotKeys (pyGet input "architectural_concept" (.dict []))
  let d ← pyDotKeys (pyGet input "system_design" (.dict []))
  let e ← pyDotKeys (pyGet input "experiential_design" (.dict []))
  let f ← pyDotKeys (pyGet input "cost_supply_chain_analysis" (.dict []))
  let g ← pyDotKeys (pyGet input "estimated_schedule" (.dict []))
  .ok [("client_requirements", a), ("site_report_keys", b), ("architectural_keys", c),
       ("system_design_keys", d), ("experiential_design_keys", e), ("cost_keys", f),
       ("schedule_keys", g)]

/-- `json.dumps(agent_outputs_summary, indent=2)`: every value of the
summary is a `dict_keys` view, which the standard encoder rejects. -/
def jsonDumpsKeysViews (_summary : List (String × List String)) : Except PyErr String :=
  .error (.typeError "Object of type dict_keys is not JSON serializable")

/-- Body of `SemanticDataIntegrationOntologyAgent.process_request` inside
the `try` block (the prompt interpolation raises before the model is ever
called, but the remaining source is translated nonetheless). -/
def semanticBody (projectId : Value) (summary : List (String × List String))
    (llm : Option String) : Except PyErr PyDict := do
  let _ ← jsonDumpsKeysViews summary
  match llm with
  | none =>
      .ok (agentError semanticAgentName
        "LLM did not generate a valid response for data integration.")
  | some text => do
    let parsed ←
      match jsonLoads text with
      | .error _ => .ok (Value.dict semanticFallback)
      | .ok v =>
        match v with
        | .dict d =>
          if semanticRequiredKeys.all (fun k => (dictGet d k).isSome) then .ok (Value.dict d)
          else .error (.valueError
            "LLM response JSON is not in the expected data integration format.")
        | _ => .error (.valueError
            "LLM response JSON is not in the expected data integration format.")
    let domains ← pyDotGet parsed "data_domains"
    let challenges ← pyDotGet parsed "integration_challenges"
    let ontologies ← pyDotGet parsed "suggested_ontologies"
    .ok [("agent_name", .str semanticAgentName), ("status", .str "success"),
         ("data_integration_analysis", .dict
           [("project_id", projectId),
            ("status", .str "data_integration_analysis_complete"),
            ("data_domains_identified", domains),
            ("potential_integration_challenges", challenges),
            ("recommended_ontologies", ontologies)])]

/-- `SemanticDataIntegrationOntologyAgent.process_request`: an `error`
result is an exception escaping the method (the `.keys()` extractions run
before the `try` block). -/
def semanticProcessRequest (input : PyDict) (llm : Option String) :
    Except PyErr AgentRun := do
  let projectId := pyGet input "project_id" .null
  let summary ← semanticPreTryKeys input
  match semanticBody projectId summary llm with
  | .ok out => .ok ⟨out, input⟩
  | .error e =>
      .ok ⟨agentError semanticAgentName
        ("Failed data integration analysis for " ++ pyStr projectId ++ ": " ++ pyErrStr e),
        input⟩

/-! Helper predicates used by the statements below. -/

/-- The status invariant of an agent output: its `status` key is exactly
`success` or `error`. -/
def statusIsOk (out : PyDict) : Prop :=
  dictGet out "status" = some (.str "success") ∨ dictGet out "status" = some (.str "error")

/-- Whether the first candidate of a `generate_content` outcome carries at
least one content part (the condition `generate_text` actually tests). -/
def firstCandidateHasContent : TextCallOutcome → Bool
  | .ok (c :: _) => !c.parts.isEmpty
  | _ => false

/-- The payload the cost agent returns on the fallback path: the fallback
object extended with the merged pass-through identifiers. -/
def costFallbackMerged (projectId : Value) : PyDict :=
  dictSet (dictSet (costFallback projectId) "project_id" projectId)
    "status" (.str "cost_estimation_complete")

/-- The payload the cost agent returns on the validated path: the parsed
object extended with the merged pass-through identifiers. -/
def costParsedMerged (d : PyDict) (projectId : Value) : PyDict :=
  dictSet (dictSet d "project_id" projectId) "status" (.str "cost_estimation_complete")

/-! Theorems.  Each claim of the specification review is settled by one
named theorem (with a witness when the theorem carries hypotheses, and a
counterexample theorem where the original claim fails on the code). -/

/-- C6, counterexample: the claim reads `generate_text` as returning text
whenever the response contains at least one candidate with at least one
content part.  For a response whose first candidate has no parts but
whose second candidate does, the code returns nothing, because it only
ever inspects `candidates[0]`. -/
theorem generate_text_second_candidate_cex :
    generate_text ⟨true, true⟩ (.ok [⟨[]⟩, ⟨["hello"]⟩]) = none ∧
    ([Candidate.mk [], Candidate.mk ["hello"]].any (fun c => !c.parts.isEmpty)) = true :=
  ⟨rfl, rfl⟩

/-- C6, amended: `generate_text` returns text exactly when the client is
initialized, the call returns normally, there is at least one candidate,
and the FIRST candidate has at least one content part; a raising call is
converted to the unavailable result, never propagated. -/
theorem generate_text_characterization (st : GeminiServiceState) (o : TextCallOutcome) :
    (generate_text st o).isSome = (st.geminiModel && firstCandidateHasContent o) ∧
    (∀ m, generate_text st (.exn m) = none) := by
  constructor
  · cases hg : st.geminiModel with
    | false => cases o <;> simp [generate_text, firstCandidateHasContent, hg]
    | true =>
      cases o with
      | exn m => simp [generate_text, firstCandidateHasContent, hg]
      | ok cands =>
        cases cands with
        | nil => simp [generate_text, firstCandidateHasContent, hg]
        | cons c rest =>
          cases hp : c.parts <;>
            simp [generate_text, firstCandidateHasContent, hg, hp]
  · intro m
    cases hg : st.geminiModel <;> simp [generate_text, hg]

/-- C7: looking the registry up twice yields the same agents/resolver pair
and leaves the module state unchanged (so the second call allocates
nothing and does not re-run initialization), and from a fresh process the
initialization branch runs exactly once. -/
theorem get_adk_system_idempotent (st : AdkSystemState) :
    (get_adk_system (get_adk_system st).2).1 = (get_adk_system st).1 ∧
    (get_adk_system (get_adk_system st).2).2 = (get_adk_system st).2 ∧
    (get_adk_system adkInitialState).2.initCount = 1 := by
  obtain ⟨a, r, c, i⟩ := st
  cases a <;> cases r <;>
    simp [get_adk_system, init_adk_system_with_agents, adkInitialState]

/-- C8, counterexample: the fallback substituted by the cost agent is not
static.  Two runs on the same malformed model reply with project
identifiers `0` and `1` substitute different fallback objects: the
non-pass-through key `total_estimated_cost_usd` is `700000` in one run
and `700001` in the other, because the fallback embeds
`hash(project_id) % 100000`. -/
theorem cost_fallback_not_static_cex :
    (costProcessRequest [("project_id", .int 0)] (some "not json")).output =
      [("agent_name", .str costAgentName), ("status", .str "success"),
       ("cost_supply_chain_analysis", .dict
         [("total_estimated_cost_usd", .int 700000),
          ("cost_breakdown", .dict
            [("materials", .str "N/A"), ("labor", .str "N/A"), ("equipment", .str "N/A"),
             ("permits_fees", .str "N/A"), ("contingency", .str "N/A")]),
          ("procurement_strategy", .str "Generic procurement strategy due to parsing error."),
          ("project_id", .int 0), ("status", .str "cost_estimation_complete")])] ∧
    (costProcessRequest [("project_id", .int 1)] (some "not json")).output =
      [("agent_name", .str costAgentName), ("status", .str "success"),
       ("cost_supply_chain_analysis", .dict
         [("total_estimated_cost_usd", .int 700001),
          ("cost_breakdown", .dict
            [("materials", .str "N/A"), ("labor", .str "N/A"), ("equipment", .str "N/A"),
             ("permits_fees", .str "N/A"), ("contingency", .str "N/A")]),
          ("procurement_strategy", .str "Generic procurement strategy due to parsing error."),
          ("project_id", .int 1), ("status", .str "cost_estimation_complete")])] :=
  ⟨rfl, rfl⟩

/-- C8, amended: every fallback object carries exactly its agent's
required-key set and is never empty; the site and data-integration
fallbacks are fixed objects, while the cost fallback varies only through
the hash of the project identifier. -/
theorem fallback_payloads_required_keys (pid : Value) :
    dictKeys (costFallback pid) = costRequiredKeys ∧
    costFallback pid ≠ [] ∧
    dictKeys siteFallback = ["summary", "compliance_challenges", "recommendations"] ∧
    siteFallback ≠ [] ∧
    dictKeys semanticFallback = semanticRequiredKeys ∧
    semanticFallback ≠ [] := by
  refine ⟨rfl, ?_, rfl, ?_, rfl, ?_⟩ <;> simp [costFallback, siteFallback, semanticFallback]

/-- C9: with no configuration in the environment (or with only the
credential path), constructing `Settings()` raises a validation error —
and since `settings = Settings()` runs at module import, the process
crashes during startup instead of degrading.  The degradation the claim
describes exists only one layer further down: when the Vertex
initialization itself raises, both model handles stay unset and every
generate call returns the unavailable result. -/
theorem settings_required_config_crash :
    mkSettings (fun _ => none) =
      .error "pydantic validation error: missing required settings field" ∧
    mkSettings (fun k => if k = "GOOGLE_APPLICATION_CREDENTIALS"
        then some "/path/key.json" else none) =
      .error "pydantic validation error: missing required settings field" ∧
    geminiServiceInit (.exn "missing credentials") = ⟨false, false⟩ ∧
    generate_text (geminiServiceInit (.exn "missing credentials")) (.ok [⟨["hello"]⟩]) = none ∧
    generate_image (geminiServiceInit (.exn "missing credentials")) (.ok ["img"]) = none :=
  ⟨rfl, rfl, rfl, rfl, rfl⟩

/-- C1, counterexample: a model reply that parses as a JSON object but
misses every required key (`"\x7b\x7d"`, the empty object) does not get the
fallback: the cost agent returns `status = error` and no payload,
because the missing-key check raises `ValueError`, which the inner
`except json.JSONDecodeError` does not catch. -/
theorem cost_missing_keys_not_silent_cex :
    dictGet (costProcessRequest [] (some "\x7b\x7d")).output "status" =
      some (.str "error") ∧
    dictGet (costProcessRequest [] (some "\x7b\x7d")).output "cost_supply_chain_analysis" =
      none :=
  ⟨rfl, rfl⟩

/-- C3, counterexample: when image generation is unavailable, the digital
twin agent does not return an error: it substitutes "N/A" placeholders
and returns `status = success` with a full payload. -/
theorem twin_unavailable_image_success_cex :
    generate_image ⟨false, false⟩ (.ok []) = none ∧
    dictGet (twinProcessRequest [] ⟨false, false⟩ (.ok []) (.ok [])).output "status" =
      some (.str "success") ∧
    (dictGet (twinProcessRequest [] ⟨false, false⟩ (.ok []) (.ok [])).output
      "digital_twin_output").isSome = true :=
  ⟨rfl, rfl, rfl⟩

/-- Helper: every normal return of the cost agent's try-body has a
`success` or `error` status. -/
theorem costBody_ok_status (input : PyDict) (llm : Option String) (d : PyDict)
    (h : costBody input llm = .ok d) : statusIsOk d := by
  unfold costBody at h
  simp only [bind, Except.bind] at h
  repeat' split at h
  all_goals cases h
  all_goals simp [statusIsOk, agentError, dictGet]

/-- Helper: every normal return of the site agent's try-body has a
`success` or `error` status. -/
theorem siteBody_ok_status (input : PyDict) (llm : Option String) (d : PyDict)
    (h : siteBody input llm = .ok d) : statusIsOk d := by
  unfold siteBody at h
  simp only [bind, Except.bind] at h
  repeat' split at h
  all_goals cases h
  all_goals simp [statusIsOk, agentError, dictGet]

/-- Helper: every normal return of the client engagement agent's try-body
has a `success` or `error` status. -/
theorem strategicBody_ok_status (sp : String) (input : PyDict) (llm : Option String)
    (d : PyDict) (h : strategicBody sp input llm = .ok d) : statusIsOk d := by
  unfold strategicBody at h
  simp only [bind, Except.bind] at h
  repeat' split at h
  all_goals cases h
  all_goals simp [statusIsOk, agentError, dictGet]

/-- Helper: every normal return of the twin agent's try-body has a
`success` or `error` status. -/
theorem twinBody_ok_status (input : PyDict) (st : GeminiServiceState)
    (o1 o2 : ImageCallOutcome) (d : PyDict)
    (h : twinBody input st o1 o2 = .ok d) : statusIsOk d := by
  unfold twinBody at h
  simp only [bind, Except.bind] at h
  repeat' split at h
  all_goals cases h
  all_goals simp [statusIsOk, agentError, dictGet]

/-- Helper: every normal return of the data integration agent's try-body
has a `success` or `error` status. -/
theorem semanticBody_ok_status (pid : Value) (summary : List (String × List String))
    (llm : Option String) (d : PyDict)
    (h : semanticBody pid summary llm = .ok d) : statusIsOk d := by
  unfold semanticBody at h
  simp only [bind, Except.bind, jsonDumpsKeysViews] at h
  cases h

/-- Helper: with an unavailable model reply the site agent's try-body
either raises (a prompt-assembly fault) or returns the diagnostic error
output, and never reaches the parsing stage. -/
theorem siteBody_none (input : PyDict) :
    siteBody input none =
      .ok (agentError siteAgentName
        "LLM did not generate a valid response for regulatory interpretation.") ∨
    (∃ e, siteBody input none = .error e) := by
  unfold siteBody
  simp only [bind, Except.bind]
  repeat' split
  all_goals first
    | (left; rfl)
    | (right; exact ⟨_, rfl⟩)

/-- C2: for every model reply that is not valid JSON, the cost agent
returns `status = success` with the fallback object (extended with the
merged pass-through identifiers) as payload, and the fallback's keys are
exactly the declared required-key set. -/
theorem cost_fallback_on_invalid_json (input : PyDict) (text m : String)
    (hparse : jsonLoads text = .error m)
    (hreads : costPromptReads input = .ok ()) :
    (costProcessRequest input (some text)).output =
      [("agent_name", .str costAgentName), ("status", .str "success"),
       ("cost_supply_chain_analysis",
         .dict (costFallbackMerged (pyGet input "project_id" .null)))] ∧
    dictKeys (costFallback (pyGet input "project_id" .null)) = costRequiredKeys := by
  constructor
  · simp [costProcessRequest, costBody, hparse, hreads, costFallbackMerged,
      bind, Except.bind]
  · rfl

/-- C2, witness. -/
theorem cost_fallback_on_invalid_json_witness :
    (costProcessRequest [("project_id", .str "p1")] (some "not json")).output =
      [("agent_name", .str costAgentName), ("status", .str "success"),
       ("cost_supply_chain_analysis",
         .dict (costFallbackMerged (pyGet [("project_id", .str "p1")] "project_id" .null)))] ∧
    dictKeys (costFallback (pyGet [("project_id", .str "p1")] "project_id" .null)) =
      costRequiredKeys :=
  cost_fallback_on_invalid_json [("project_id", .str "p1")] "not json" "Expecting value"
    rfl rfl

/-- C5: for every model reply that is well-formed JSON with all required
keys, the cost agent returns `status = success` and its payload is the
parsed object extended with the merged pass-through identifiers (the
project identifier taken verbatim from the input and the completion
marker), under the designated output key. -/
theorem cost_valid_json_roundtrip (input : PyDict) (text : String) (d : PyDict)
    (hparse : jsonLoads text = .ok (.dict d))
    (hkeys : costHasRequiredKeys d = true)
    (hreads : costPromptReads input = .ok ()) :
    (costProcessRequest input (some text)).output =
      [("agent_name", .str costAgentName), ("status", .str "success"),
       ("cost_supply_chain_analysis",
         .dict (costParsedMerged d (pyGet input "project_id" .null)))] := by
  simp [costProcessRequest, costBody, hparse, hkeys, hreads, costParsedMerged,
    bind, Except.bind]

/-- C5, witness. -/
theorem cost_valid_json_roundtrip_witness :
    (costProcessRequest [("project_id", .str "p1")]
      (some "\x7b\"total_estimated_cost_usd\": 1, \"cost_breakdown\": \x7b\x7d, \"procurement_strategy\": \"s\"\x7d")).output =
      [("agent_name", .str costAgentName), ("status", .str "success"),
       ("cost_supply_chain_analysis",
         .dict (costParsedMerged
           [("total_estimated_cost_usd", .int 1), ("cost_breakdown", .dict []),
            ("procurement_strategy", .str "s")]
           (pyGet [("project_id", .str "p1")] "project_id" .null)))] :=
  cost_valid_json_roundtrip [("project_id", .str "p1")]
    "\x7b\"total_estimated_cost_usd\": 1, \"cost_breakdown\": \x7b\x7d, \"procurement_strategy\": \"s\"\x7d"
    [("total_estimated_cost_usd", .int 1), ("cost_breakdown", .dict []),
     ("procurement_strategy", .str "s")]
    rfl rfl rfl

/-- C1, amended: a model reply that parses as a JSON object but is
missing a required key is NOT silently degraded; the `ValueError` raised
by the check escapes the inner handler (which catches only
`JSONDecodeError`) and the outer boundary turns it into `status = error`
with the validation message.  Only a reply that fails to parse at all
gets the fallback. -/
theorem cost_missing_keys_error (input : PyDict) (text : String) (d : PyDict)
    (hparse : jsonLoads text = .ok (.dict d))
    (hmiss : costHasRequiredKeys d = false)
    (hreads : costPromptReads input = .ok ()) :
    (costProcessRequest input (some text)).output =
      agentError costAgentName
        (costErrorMessage input
          (.valueError "LLM response JSON is not in the expected cost/supply chain format.")) := by
  simp [costProcessRequest, costBody, hparse, hmiss, hreads, bind, Except.bind]

/-- C1, witness for the amended claim. -/
theorem cost_missing_keys_error_witness :
    (costProcessRequest [] (some "\x7b\x7d")).output =
      agentError costAgentName
        (costErrorMessage []
          (.valueError "LLM response JSON is not in the expected cost/supply chain format.")) :=
  cost_missing_keys_error [] "\x7b\x7d" [] rfl rfl rfl

/-- C3, amended: the agents that consume `generate_text` (cost, site
intelligence, client engagement) return `status = error` with no payload
key when the model reply is unavailable, before any parsing; the digital
twin agent, whose generation calls are image calls, instead tolerates
unavailability (see its counterexample theorem). -/
theorem text_agents_unavailable_error (input : PyDict) (sp : String) :
    dictGet (costProcessRequest input none).output "status" = some (.str "error") ∧
    dictGet (costProcessRequest input none).output "cost_supply_chain_analysis" = none ∧
    dictGet (siteProcessRequest input none).output "status" = some (.str "error") ∧
    dictGet (siteProcessRequest input none).output "site_feasibility_report" = none ∧
    dictGet (strategicProcessRequest sp input none).output "status" = some (.str "error") ∧
    dictGet (strategicProcessRequest sp input none).output "parsed_data" = none := by
  refine ⟨?_, ?_, ?_, ?_, rfl, rfl⟩
  · cases hr : costPromptReads input with
    | ok u => simp [costProcessRequest, costBody, hr, bind, Except.bind, agentError, dictGet]
    | error e => simp [costProcessRequest, costBody, hr, bind, Except.bind, agentError, dictGet]
  · cases hr : costPromptReads input with
    | ok u => simp [costProcessRequest, costBody, hr, bind, Except.bind, agentError, dictGet]
    | error e => simp [costProcessRequest, costBody, hr, bind, Except.bind, agentError, dictGet]
  · rcases siteBody_none input with h | ⟨e, h⟩ <;>
      simp [siteProcessRequest, h, agentError, dictGet]
  · rcases siteBody_none input with h | ⟨e, h⟩ <;>
      simp [siteProcessRequest, h, agentError, dictGet]

/-- C4, counterexample: the data integration agent evaluates seven
`.keys()` extractions BEFORE its `try` block, so an input whose
`parsed_data` value is not a mapping makes `process_request` raise an
uncaught `AttributeError` instead of returning an error-status output. -/
theorem semantic_pre_try_raises_cex :
    semanticProcessRequest [("parsed_data", .int 5)] none =
      .error (.attributeError "int object has no attribute keys") :=
  rfl

/-- C4, amended: for the cost, site, client engagement and twin agents
every call returns normally with a `status` of exactly `success` or
`error`, and a fault in the cost agent's try-body is converted at the
outer boundary into `status = error` with the exception's description in
the message; the data integration agent has the same property only once
its pre-`try` extractions succeed (they can raise out of the method, see
the counterexample). -/
theorem process_request_status_total (input : PyDict) (llm : Option String) (sp : String)
    (st : GeminiServiceState) (o1 o2 : ImageCallOutcome) :
    statusIsOk (costProcessRequest input llm).output ∧
    statusIsOk (siteProcessRequest input llm).output ∧
    statusIsOk (strategicProcessRequest sp input llm).output ∧
    statusIsOk (twinProcessRequest input st o1 o2).output ∧
    (∀ e, costBody input llm = .error e →
      (costProcessRequest input llm).output =
        agentError costAgentName (costErrorMessage input e)) ∧
    (∀ r, semanticProcessRequest input llm = .ok r → statusIsOk r.output) := by
  refine ⟨?_, ?_, ?_, ?_, ?_, ?_⟩
  · cases hb : costBody input llm with
    | ok d => simpa [costProcessRequest, hb] using costBody_ok_status input llm d hb
    | error e => simp [costProcessRequest, hb, statusIsOk, agentError, dictGet]
  · cases hb : siteBody input llm with
    | ok d => simpa [siteProcessRequest, hb] using siteBody_ok_status input llm d hb
    | error e => simp [siteProcessRequest, hb, statusIsOk, agentError, dictGet]
  · cases hb : strategicBody sp input llm with
    | ok d => simpa [strategicProcessRequest, hb] using strategicBody_ok_status sp input llm d hb
    | error e => simp [strategicProcessRequest, hb, statusIsOk, agentError, dictGet]
  · cases hb : twinBody input st o1 o2 with
    | ok d => simpa [twinProcessRequest, hb] using twinBody_ok_status input st o1 o2 d hb
    | error e => simp [twinProcessRequest, hb, statusIsOk, agentError, dictGet]
  · intro e hb
    simp [costProcessRequest, hb]
  · intro r h
    unfold semanticProcessRequest at h
    simp only [bind, Except.bind] at h
    cases hp : semanticPreTryKeys input with
    | error e => rw [hp] at h; cases h
    | ok s =>
      rw [hp] at h
      dsimp only at h
      cases hb : semanticBody (pyGet input "project_id" Value.null) s llm with
      | ok out =>
          rw [hb] at h
          cases h
          exact semanticBody_ok_status _ _ _ _ hb
      | error e =>
          rw [hb] at h
          cases h
          simp [statusIsOk, agentError, dictGet]

/-- C4, witness: the amended theorem applied at concrete inputs — a
non-mapping `architectural_concept` value makes the cost agent's try-body
raise and the boundary converts it, and a normal data-integration run has
a well-formed status. -/
theorem process_request_status_total_witness :
    (costProcessRequest [("architectural_concept", .int 3)] (some "x")).output =
      agentError costAgentName
        (costErrorMessage [("architectural_concept", .int 3)]
          (.attributeError "int object has no attribute get")) ∧
    statusIsOk
      (AgentRun.mk
        (agentError semanticAgentName
          ("Failed data integration analysis for " ++ pyStr .null ++ ": " ++
            pyErrStr (.typeError "Object of type dict_keys is not JSON serializable")))
        []).output :=
  ⟨(process_request_status_total [("architectural_concept", .int 3)] (some "x") "p"
      ⟨true, true⟩ (.ok []) (.ok [])).2.2.2.2.1
      (.attributeError "int object has no attribute get") rfl,
   (process_request_status_total [] none "p" ⟨true, true⟩ (.ok []) (.ok [])).2.2.2.2.2
      ⟨agentError semanticAgentName
        ("Failed data integration analysis for " ++ pyStr .null ++ ": " ++
          pyErrStr (.typeError "Object of type dict_keys is not JSON serializable")),
       []⟩ rfl⟩

/-- C10: no agent mutates its input mapping: every access the sources
make to `user_input` is a defaulted `dict.get` read, and the pass-through
identifiers are merged (via `dictSet`) only into the freshly parsed or
fallback payload objects, so each call leaves the input exactly as it
was. -/
theorem process_request_preserves_input (input : PyDict) (llm : Option String) (sp : String)
    (st : GeminiServiceState) (o1 o2 : ImageCallOutcome) :
    (costProcessRequest input llm).userInputAfter = input ∧
    (siteProcessRequest input llm).userInputAfter = input ∧
    (strategicProcessRequest sp input llm).userInputAfter = input ∧
    (twinProcessRequest input st o1 o2).userInputAfter = input ∧
    (∀ r, semanticProcessRequest input llm = .ok r → r.userInputAfter = input) := by
  refine ⟨?_, ?_, ?_, ?_, ?_⟩
  · cases h : costBody input llm <;> simp [costProcessRequest, h]
  · cases h : siteBody input llm <;> simp [siteProcessRequest, h]
  · cases h : strategicBody sp input llm <;> simp [strategicProcessRequest, h]
  · cases h : twinBody input st o1 o2 <;> simp [twinProcessRequest, h]
  · intro r h
    unfold semanticProcessRequest at h
    simp only [bind, Except.bind] at h
    cases hp : semanticPreTryKeys input with
    | error e => rw [hp] at h; cases h
    | ok s =>
      rw [hp] at h
      dsimp only at h
      cases hb : semanticBody (pyGet input "project_id" Value.null) s llm with
      | ok out => rw [hb] at h; cases h; rfl
      | error e => rw [hb] at h; cases h; rfl

/-- C10, witness. -/
theorem process_request_preserves_input_witness :
    (AgentRun.mk
      (agentError semanticAgentName
        ("Failed data integration analysis for " ++ pyStr .null ++ ": " ++
          pyErrStr (.typeError "Object of type dict_keys is not JSON serializable")))
      []).userInputAfter = ([] : PyDict) :=
  (process_request_preserves_input [] none "p" ⟨true, true⟩ (.ok []) (.ok [])).2.2.2.2
    ⟨agentError semanticAgentName
      ("Failed data integration analysis for " ++ pyStr .null ++ ": " ++
        pyErrStr (.typeError "Object of type dict_keys is not JSON serializable")),
     []⟩ rfl
